import Mathlib

/-! # gaea-core: trusted-execution helpers

A shallow embedding of

* `tee/storage/azurehelper/container.go` (`MakeContainerURL`,
  `DownloadFilesFromContainer`, `UploadFileToContainer`), and
* `tee/container/container.go` (the `Container` interface and the backend
  selector `Type`).

Go strings are byte sequences, so they are modelled as lists of byte values.
A Go call either returns its results or panics; the functions of
`azurehelper` also record, in order, the calls they make to their
collaborators (the process environment, the Azure SDK, `net/url`, the blob
service), so that "this call is never reached" is a statement about the
recorded trace.
-/

namespace azurehelper

/-! ## Go values -/

/-- A Go `string` (and a `[]byte`): a sequence of byte values. -/
abbrev GoString := List Nat

/-- The bytes of a string literal (its UTF-8 encoding). -/
def str (s : String) : GoString :=
  (s.data.flatMap String.utf8EncodeChar).map UInt8.toNat

/-- A Go `error`: `none` is `nil`, `some m` an error whose `Error()` text is `m`. -/
abbrev GoError := Option GoString

/-- The result of running a Go call: it returns its values, or it panics. -/
inductive Outcome (α : Type) where
  | returned (a : α)
  | panicked (msg : GoString)
  deriving DecidableEq, Repr

/-! ## Collaborator types (`net/url`, `azblob`) -/

/-- `url.Userinfo`. -/
structure Userinfo where
  username : GoString
  password : GoString
  passwordSet : Bool
  deriving DecidableEq, Repr

/-- `url.URL` (the fields `url.Parse` fills in). -/
structure URL where
  Scheme : GoString := []
  Opaque : GoString := []
  User : Option Userinfo := none
  Host : GoString := []
  Path : GoString := []
  RawPath : GoString := []
  ForceQuery : Bool := false
  RawQuery : GoString := []
  Fragment : GoString := []
  deriving DecidableEq, Repr

/-- `azblob.SharedKeyCredential`: the account name and the decoded key. -/
structure SharedKeyCredential where
  accountName : GoString
  accountKey : List Nat
  deriving DecidableEq, Repr

/-- `pipeline.Pipeline` as `azblob.NewPipeline(credential, PipelineOptions{})`
builds it: the default policies around the given credential. -/
structure Pipeline where
  credential : SharedKeyCredential
  deriving DecidableEq, Repr

/-- `azblob.NewPipeline(credential, azblob.PipelineOptions{})`. -/
def NewPipeline (credential : SharedKeyCredential) : Pipeline := ⟨credential⟩

/-- `azblob.ContainerURL`; `client = none` is the zero value of
`var containerURL azblob.ContainerURL`. -/
structure ContainerURL where
  client : Option (URL × Pipeline)
  deriving DecidableEq, Repr

/-- The zero value `var containerURL azblob.ContainerURL`. -/
def ContainerURL.zero : ContainerURL := ⟨none⟩

/-- `azblob.NewContainerURL(url, p)`. -/
def NewContainerURL (url : URL) (p : Pipeline) : ContainerURL := ⟨some (url, p)⟩

/-- `containerURL.NewBlobURL(blobName)` / `containerURL.NewBlockBlobURL(blobName)`:
the blob `blobName` of the container. -/
structure BlobURL where
  container : ContainerURL
  blobName : GoString
  deriving DecidableEq, Repr

/-- `containerURL.NewBlobURL(filePath)`. -/
def ContainerURL.NewBlobURL (c : ContainerURL) (blobName : GoString) : BlobURL :=
  ⟨c, blobName⟩

/-- `containerURL.NewBlockBlobURL(filePath)`. -/
def ContainerURL.NewBlockBlobURL (c : ContainerURL) (blobName : GoString) : BlobURL :=
  ⟨c, blobName⟩

/-- `azblob.DownloadResponse`, identified by the blob it was obtained for. -/
structure DownloadResponse where
  blob : BlobURL
  deriving DecidableEq, Repr

/-- `azblob.CountToEnd`. -/
def CountToEnd : Int := 0

/-- The calls a function of this package makes outside itself, as recorded
in its trace. `Download`, `ReadFrom` and `UploadBufferToBlockBlob` are the
requests to the blob service. -/
inductive Event where
  | Getenv (key : GoString)
  | NewSharedKeyCredential (accountName accountKey : GoString)
  | NewPipeline
  | Parse (rawURL : GoString)
  | NewContainerURL
  | Download (blob : BlobURL) (offset count : Int)
  | ReadFrom (resp : DownloadResponse) (maxRetryRequests : Nat)
  | UploadBufferToBlockBlob (data : List Nat) (blob : BlobURL) (blockSize parallelism : Nat)
  deriving DecidableEq, Repr

/-- Whether an event is a request to the blob service. -/
def Event.isRequest : Event → Bool
  | .Download _ _ _ => true
  | .ReadFrom _ _ => true
  | .UploadBufferToBlockBlob _ _ _ _ => true
  | _ => false

/-- A run of a Go function: the collaborator calls it made, in order, and
how it ended. -/
structure Exec (α : Type) where
  trace : List Event
  outcome : Outcome α

/-- The errors of `url.Parse`, by kind; an escape or host error carries the
offending text, as in Go. -/
inductive url.ParseError where
  | invalidControlCharacter
  | missingProtocolScheme
  | firstPathSegmentColon
  | missingBracket
  | invalidPort (colonPort : GoString)
  | invalidUserinfo
  | EscapeError (s : GoString)
  | InvalidHostError (s : GoString)
  deriving DecidableEq, Repr

/-- Everything outside the package that its functions call: the process
environment, the two library functions that can fail, and the blob service. -/
structure World where
  /-- `os.Getenv`: the value of the variable, empty when it is unset. -/
  Getenv : GoString → GoString
  /-- `azblob.NewSharedKeyCredential(accountName, accountKey)`. -/
  NewSharedKeyCredential : GoString → GoString → Except GoString SharedKeyCredential
  /-- `url.Parse(rawURL)`: `.ok u` is `(&u, nil)`, `.error e` is `(nil, e)`. -/
  Parse : GoString → Except url.ParseError URL
  /-- `blobURL.Download(ctx, offset, count, BlobAccessConditions{}, false)`. -/
  Download : BlobURL → Int → Int → Except GoString DownloadResponse
  /-- `downloadedData.ReadFrom(downloadResponse.Body(RetryReaderOptions{MaxRetryRequests}))`:
  the bytes read into the buffer and the error, if any. -/
  ReadFrom : DownloadResponse → Nat → List Nat × GoError
  /-- `azblob.UploadBufferToBlockBlob(ctx, data, blobURL, options)`: its error. -/
  UploadBufferToBlockBlob : List Nat → BlobURL → Nat → Nat → GoError

/-! ## `container.go` -/

/-- `AzureStorageAccountEnvKey = "AZURE_STORAGE_ACCOUNT"`. -/
def AzureStorageAccountEnvKey : GoString := str "AZURE_STORAGE_ACCOUNT"

/-- `AzureStorageAccessKeyEnvKey = "AZURE_STORAGE_ACCESS_KEY"`. -/
def AzureStorageAccessKeyEnvKey : GoString := str "AZURE_STORAGE_ACCESS_KEY"

/-- The text of the panic raised by `*URL` when `URL` is `nil`. -/
def nilDereference : GoString :=
  str "runtime error: invalid memory address or nil pointer dereference"

/-- `MakeContainerURL(containerName)`.

`fmt.Errorf`/`fmt.Sprintf` with `%s` verbs are written as the concatenation
they compute. `URL, _ := url.Parse(...)` drops the error of `url.Parse`; when
it fails `URL` is `nil` and `*URL` panics. -/
def MakeContainerURL (w : World) (containerName : GoString) :
    Exec (ContainerURL × GoError) :=
  let containerURL := ContainerURL.zero
  if containerName.length = 0 then
    ⟨[], .returned (containerURL, some (str "Error container name must be non-empty"))⟩
  else
    let accountName := w.Getenv AzureStorageAccountEnvKey
    let accountKey := w.Getenv AzureStorageAccessKeyEnvKey
    let t₁ := [Event.Getenv AzureStorageAccountEnvKey, Event.Getenv AzureStorageAccessKeyEnvKey]
    if accountName.length = 0 ∨ accountKey.length = 0 then
      ⟨t₁, .returned (containerURL,
        some (str "Either the " ++ AzureStorageAccountEnvKey ++ str " or " ++
          AzureStorageAccessKeyEnvKey ++ str " environment variable is not set"))⟩
    else
      let t₂ := t₁ ++ [Event.NewSharedKeyCredential accountName accountKey]
      match w.NewSharedKeyCredential accountName accountKey with
      | .error err =>
        ⟨t₂, .returned (containerURL, some (str "Invalid credentials with error: " ++ err))⟩
      | .ok credential =>
        let p := NewPipeline credential
        let rawURL := str "https://" ++ accountName ++ str ".blob.core.windows.net/" ++
          containerName
        let t₃ := t₂ ++ [Event.NewPipeline, Event.Parse rawURL]
        match w.Parse rawURL with
        | .error _ => ⟨t₃, .panicked nilDereference⟩
        | .ok URL => ⟨t₃ ++ [Event.NewContainerURL], .returned (NewContainerURL URL p, none)⟩

/-- `DownloadFilesFromContainer(containerName, filePath)`; the `nil` slice is
the empty list. -/
def DownloadFilesFromContainer (w : World) (containerName filePath : GoString) :
    Exec (List Nat × GoError) :=
  match MakeContainerURL w containerName with
  | ⟨t, .panicked msg⟩ => ⟨t, .panicked msg⟩
  | ⟨t, .returned (_, some err)⟩ => ⟨t, .returned ([], some err)⟩
  | ⟨t, .returned (containerURL, none)⟩ =>
    let blobURL := containerURL.NewBlobURL filePath
    let t₁ := t ++ [Event.Download blobURL 0 CountToEnd]
    match w.Download blobURL 0 CountToEnd with
    | .error err => ⟨t₁, .returned ([], some err)⟩
    | .ok downloadResponse =>
      let t₂ := t₁ ++ [Event.ReadFrom downloadResponse 2]
      match w.ReadFrom downloadResponse 2 with
      | (_, some err) => ⟨t₂, .returned ([], some err)⟩
      | (downloadedData, none) => ⟨t₂, .returned (downloadedData, none)⟩

/-- `UploadFileToContainer(containerName, filePath, data)`. -/
def UploadFileToContainer (w : World) (containerName filePath : GoString) (data : List Nat) :
    Exec GoError :=
  match MakeContainerURL w containerName with
  | ⟨t, .panicked msg⟩ => ⟨t, .panicked msg⟩
  | ⟨t, .returned (_, some err)⟩ => ⟨t, .returned (some err)⟩
  | ⟨t, .returned (containerURL, none)⟩ =>
    let blobURL := containerURL.NewBlockBlobURL filePath
    ⟨t ++ [Event.UploadBufferToBlockBlob data blobURL (4 * 1024 * 1024) 16],
      .returned (w.UploadBufferToBlockBlob data blobURL (4 * 1024 * 1024) 16)⟩

/-! ## The Go libraries behind `World`

Models of the library functions `MakeContainerURL` calls: `encoding/base64`
(`StdEncoding.DecodeString`), `azblob.NewSharedKeyCredential` and `net/url`
(`Parse`). They give the concrete worlds at which the statements below are
evaluated. -/

namespace base64

/-- `StdEncoding.decodeMap`: the value of an alphabet byte
(`A-Z`, `a-z`, `0-9`, `+`, `/`), `none` for `0xff`. -/
def decodeMap (c : Nat) : Option Nat :=
  if 65 ≤ c ∧ c ≤ 90 then some (c - 65)
  else if 97 ≤ c ∧ c ≤ 122 then some (c - 97 + 26)
  else if 48 ≤ c ∧ c ≤ 57 then some (c - 48 + 52)
  else if c = 43 then some 62
  else if c = 47 then some 63
  else none

/-- The loop `for si < len(src) && (src[si] == '\n' || src[si] == '\r') { si++ }`. -/
def skipNewlines : List Nat → Nat → List Nat × Nat
  | [], si => ([], si)
  | c :: rest, si => if c = 10 ∨ c = 13 then skipNewlines rest (si + 1) else (c :: rest, si)

/-- The last step of `decodeQuantum`: the first `dlen - 1` bytes of the 24 bits
held by the `dlen` values of `dbuf`. -/
def quantumBytes (dbuf : List Nat) : List Nat :=
  let val := dbuf.getD 0 0 * 2 ^ 18 + dbuf.getD 1 0 * 2 ^ 12 + dbuf.getD 2 0 * 2 ^ 6 + dbuf.getD 3 0
  [val / 2 ^ 16 % 256, val / 2 ^ 8 % 256, val % 256].take (dbuf.length - 1)

/-- After the padding of a quantum: skip newlines; anything left is trailing
garbage, `CorruptInputError(si)`. The bytes of the quantum are kept either way. -/
def afterPadding (dbuf out : List Nat) (rest : List Nat) (si : Nat) : List Nat × Option Nat :=
  match skipNewlines rest si with
  | ([], _) => (out ++ quantumBytes dbuf, none)
  | (_ :: _, si₁) => (out ++ quantumBytes dbuf, some si₁)

/-- `Encoding.Decode` for `StdEncoding` (padding `=`, not strict): the loop over
`decodeQuantum`, with `dbuf` the values of the current quantum, `out` the bytes
decoded so far, `si` the index of the next input byte. The result is the bytes
decoded and the offset of a `CorruptInputError`, if any. (The 8- and 4-byte fast
paths of `Decode` decode the same quanta.) -/
def decodeLoop (srcLen : Nat) : List Nat → List Nat → List Nat → Nat → List Nat × Option Nat
  | dbuf, out, [], si =>
    if dbuf.length = 0 then (out, none) else (out, some (si - dbuf.length))
  | dbuf, out, c :: rest, si =>
    match decodeMap c with
    | some v =>
      if dbuf.length = 3 then decodeLoop srcLen [] (out ++ quantumBytes (dbuf ++ [v])) rest (si + 1)
      else decodeLoop srcLen (dbuf ++ [v]) out rest (si + 1)
    | none =>
      if c = 10 ∨ c = 13 then decodeLoop srcLen dbuf out rest (si + 1)
      else if c ≠ 61 then (out, some si)
      else if dbuf.length < 2 then (out, some si)
      else if dbuf.length = 2 then
        match skipNewlines rest (si + 1) with
        | ([], _) => (out, some srcLen)
        | (d :: rest₁, si₁) =>
          if d ≠ 61 then (out, some (si₁ - 1)) else afterPadding dbuf out rest₁ (si₁ + 1)
      else afterPadding dbuf out rest (si + 1)

/-- `strconv.FormatInt(int64(n), 10)` for a non-negative `n`. -/
def itoa (n : Nat) : GoString := (Nat.toDigits 10 n).map Char.toNat

/-- `CorruptInputError(n).Error()`. -/
def CorruptInputError (n : Nat) : GoString := str "illegal base64 data at input byte " ++ itoa n

/-- `base64.StdEncoding.DecodeString(s)`: the decoded bytes, and the error. -/
def DecodeString (s : GoString) : List Nat × GoError :=
  match decodeLoop s.length [] [] s 0 with
  | (out, none) => (out, none)
  | (out, some n) => (out, some (CorruptInputError n))

end base64

/-- `azblob.NewSharedKeyCredential(accountName, accountKey)`: the key is
decoded as standard base64, and the decoder's error is returned as it is. -/
def NewSharedKeyCredential (accountName accountKey : GoString) :
    Except GoString SharedKeyCredential :=
  match base64.DecodeString accountKey with
  | (_, some err) => .error err
  | (bytes, none) => .ok ⟨accountName, bytes⟩

namespace url

/-- The `encoding` modes of `net/url`. -/
inductive encoding where
  | encodePath
  | encodePathSegment
  | encodeHost
  | encodeZone
  | encodeUserPassword
  | encodeQueryComponent
  | encodeFragment
  deriving DecidableEq, Repr

open encoding

/-- `'a' <= c && c <= 'z' || 'A' <= c && c <= 'Z'`. -/
def isLetter (c : Nat) : Bool := (97 ≤ c && c ≤ 122) || (65 ≤ c && c ≤ 90)

/-- `'0' <= c && c <= '9'`. -/
def isDigit (c : Nat) : Bool := 48 ≤ c && c ≤ 57

/-- `ishex(c)`. -/
def ishex (c : Nat) : Bool :=
  (48 ≤ c && c ≤ 57) || (97 ≤ c && c ≤ 102) || (65 ≤ c && c ≤ 70)

/-- `unhex(c)`. -/
def unhex (c : Nat) : Nat :=
  if 48 ≤ c ∧ c ≤ 57 then c - 48
  else if 97 ≤ c ∧ c ≤ 102 then c - 97 + 10
  else if 65 ≤ c ∧ c ≤ 70 then c - 65 + 10
  else 0

/-- `stringContainsCTLByte(s)`: a byte `< ' '` or `0x7f`. -/
def stringContainsCTLByte (s : GoString) : Bool := s.any (fun b => b < 32 || b == 127)

/-- `strings.Cut(s, sep)` for a one-byte `sep`: the text before the first
`sep`, the text after it, and whether `sep` was found. -/
def Cut (s : GoString) (sep : Nat) : GoString × GoString × Bool :=
  match s.span (fun b => b != sep) with
  | (before, []) => (before, [], false)
  | (before, _ :: after) => (before, after, true)

/-- `strings.LastIndex(s, sep)` for a one-byte `sep`; `none` is `-1`. -/
def LastIndex (s : GoString) (sep : Nat) : Option Nat :=
  match Cut s.reverse sep with
  | (_, _, false) => none
  | (_, before, true) => some before.length

/-- `shouldEscape(c, mode)`. -/
def shouldEscape (c : Nat) (mode : encoding) : Bool :=
  if isLetter c || isDigit c then false
  else if (mode = encodeHost ∨ mode = encodeZone) ∧
      c ∈ [33, 36, 38, 39, 40, 41, 42, 43, 44, 59, 61, 58, 91, 93, 60, 62, 34] then false
  else if c ∈ [45, 95, 46, 126] then false
  else if c ∈ [36, 38, 43, 44, 47, 58, 59, 61, 63, 64] ∧ mode = encodePath then c = 63
  else if c ∈ [36, 38, 43, 44, 47, 58, 59, 61, 63, 64] ∧ mode = encodePathSegment then
    c = 47 ∨ c = 59 ∨ c = 44 ∨ c = 63
  else if c ∈ [36, 38, 43, 44, 47, 58, 59, 61, 63, 64] ∧ mode = encodeUserPassword then
    c = 64 ∨ c = 47 ∨ c = 63 ∨ c = 58
  else if c ∈ [36, 38, 43, 44, 47, 58, 59, 61, 63, 64] ∧ mode = encodeQueryComponent then true
  else if c ∈ [36, 38, 43, 44, 47, 58, 59, 61, 63, 64] ∧ mode = encodeFragment then false
  else if mode = encodeFragment ∧ c ∈ [33, 40, 41, 42] then false
  else true

/-- The first loop of `unescape(s, mode)`: the number of `%` escapes, or the
error of a malformed one (and, in a host, of a byte that may not stand there). -/
def unescapeCount (mode : encoding) : GoString → Except ParseError Nat
  | [] => .ok 0
  | c :: rest =>
    if c = 37 then
      match rest with
      | h₁ :: h₂ :: rest₂ =>
        if !ishex h₁ || !ishex h₂ then .error (.EscapeError (c :: rest.take 2))
        else if mode = encodeHost ∧ unhex h₁ < 8 ∧ [c, h₁, h₂] ≠ [37, 50, 53] then
          .error (.EscapeError [c, h₁, h₂])
        else if mode = encodeZone ∧ [c, h₁, h₂] ≠ [37, 50, 53] ∧ unhex h₁ * 16 + unhex h₂ ≠ 32 ∧
            shouldEscape (unhex h₁ * 16 + unhex h₂) encodeHost then
          .error (.EscapeError [c, h₁, h₂])
        else (unescapeCount mode rest₂).map (· + 1)
      | _ => .error (.EscapeError (c :: rest.take 2))
    else if c = 43 then unescapeCount mode rest
    else if (mode = encodeHost ∨ mode = encodeZone) ∧ c < 128 ∧ shouldEscape c encodeHost then
      .error (.InvalidHostError [c])
    else unescapeCount mode rest

/-- The second loop of `unescape(s, mode)`, on a string the first loop accepted. -/
def unescapeWrite (mode : encoding) : GoString → GoString
  | [] => []
  | c :: rest =>
    if c = 37 then
      match rest with
      | h₁ :: h₂ :: rest₂ => (unhex h₁ * 16 + unhex h₂) :: unescapeWrite mode rest₂
      | _ => []
    else if c = 43 then (if mode = encodeQueryComponent then 32 else 43) :: unescapeWrite mode rest
    else c :: unescapeWrite mode rest

/-- `unescape(s, mode)`. -/
def unescape (s : GoString) (mode : encoding) : Except ParseError GoString :=
  match unescapeCount mode s with
  | .error e => .error e
  | .ok n =>
    if n = 0 ∧ ¬ (mode = encodeQueryComponent ∧ 43 ∈ s) then .ok s
    else .ok (unescapeWrite mode s)

/-- `upperhex[i]`. -/
def upperhex (i : Nat) : Nat := if i < 10 then 48 + i else 65 + (i - 10)

/-- `escape(s, mode)`. -/
def escape (s : GoString) (mode : encoding) : GoString :=
  s.flatMap (fun c =>
    if shouldEscape c mode then
      if c = 32 ∧ mode = encodeQueryComponent then [43]
      else [37, upperhex (c / 16), upperhex (c % 16)]
    else [c])

/-- The loop of `getScheme(rawURL)` from index `i`, over the bytes from `i` on. -/
def getSchemeFrom (rawURL : GoString) : Nat → GoString → Except ParseError (GoString × GoString)
  | _, [] => .ok ([], rawURL)
  | i, c :: rest =>
    if isLetter c then getSchemeFrom rawURL (i + 1) rest
    else if isDigit c || c = 43 || c = 45 || c = 46 then
      if i = 0 then .ok ([], rawURL) else getSchemeFrom rawURL (i + 1) rest
    else if c = 58 then
      if i = 0 then .error .missingProtocolScheme
      else .ok (rawURL.take i, rawURL.drop (i + 1))
    else .ok ([], rawURL)

/-- `getScheme(rawURL)`: the scheme and the rest. -/
def getScheme (rawURL : GoString) : Except ParseError (GoString × GoString) :=
  getSchemeFrom rawURL 0 rawURL

/-- `strings.ToLower` on ASCII bytes. -/
def ToLower (s : GoString) : GoString := s.map (fun c => if 65 ≤ c ∧ c ≤ 90 then c + 32 else c)

/-- `validOptionalPort(port)`. -/
def validOptionalPort (port : GoString) : Bool :=
  match port with
  | [] => true
  | c :: rest => c == 58 && rest.all isDigit

/-- `validUserinfo(s)`. -/
def validUserinfo (s : GoString) : Bool :=
  s.all (fun r => isLetter r || isDigit r ||
    decide (r ∈ [45, 46, 95, 58, 126, 33, 36, 38, 39, 40, 41, 42, 43, 44, 59, 61, 37, 64]))

/-- The index of the first `%25` in `s` (`strings.Index(s, "%25")`). -/
def indexPercent25 : GoString → Option Nat
  | [] => none
  | c :: rest =>
    if (c :: rest).take 3 = [37, 50, 53] then some 0 else (indexPercent25 rest).map (· + 1)

/-- `parseHost(host)`. -/
def parseHost (host : GoString) : Except ParseError GoString :=
  let plain : Except ParseError GoString := unescape host encodeHost
  if host.head? = some 91 then
    match LastIndex host 93 with
    | none => .error .missingBracket
    | some i =>
      let colonPort := host.drop (i + 1)
      if !validOptionalPort colonPort then .error (.invalidPort colonPort)
      else
        match indexPercent25 (host.take i) with
        | some zone =>
          match unescape (host.take zone) encodeHost with
          | .error e => .error e
          | .ok host1 =>
            match unescape ((host.take i).drop zone) encodeZone with
            | .error e => .error e
            | .ok host2 =>
              match unescape (host.drop i) encodeHost with
              | .error e => .error e
              | .ok host3 => .ok (host1 ++ host2 ++ host3)
        | none => plain
  else
    match LastIndex host 58 with
    | some i =>
      let colonPort := host.drop i
      if !validOptionalPort colonPort then .error (.invalidPort colonPort) else plain
    | none => plain

/-- `parseAuthority(authority)`. -/
def parseAuthority (authority : GoString) : Except ParseError (Option Userinfo × GoString) :=
  match LastIndex authority 64 with
  | none =>
    match parseHost authority with
    | .error e => .error e
    | .ok host => .ok (none, host)
  | some i =>
    match parseHost (authority.drop (i + 1)) with
    | .error e => .error e
    | .ok host =>
      let userinfo := authority.take i
      if !validUserinfo userinfo then .error .invalidUserinfo
      else if 58 ∉ userinfo then
        match unescape userinfo encodeUserPassword with
        | .error e => .error e
        | .ok username => .ok (some ⟨username, [], false⟩, host)
      else
        match unescape (Cut userinfo 58).1 encodeUserPassword with
        | .error e => .error e
        | .ok username =>
          match unescape (Cut userinfo 58).2.1 encodeUserPassword with
          | .error e => .error e
          | .ok password => .ok (some ⟨username, password, true⟩, host)

/-- `u.setPath(p)`. -/
def setPath (u : URL) (p : GoString) : Except ParseError URL :=
  match unescape p encodePath with
  | .error e => .error e
  | .ok path =>
    .ok { u with Path := path, RawPath := if p = escape path encodePath then [] else p }

/-- `parse(rawURL, viaRequest = false)`. -/
def parse (rawURL : GoString) : Except ParseError URL :=
  if stringContainsCTLByte rawURL then .error .invalidControlCharacter
  else if rawURL = [42] then .ok { Path := [42] }
  else
    match getScheme rawURL with
    | .error e => .error e
    | .ok (scheme, rest₀) =>
      let url : URL := { Scheme := ToLower scheme }
      let forceQuery : Bool := rest₀.getLast? = some 63 && rest₀.count 63 = 1
      let rest : GoString := if forceQuery then rest₀.dropLast else (Cut rest₀ 63).1
      let url : URL :=
        if forceQuery then { url with ForceQuery := true }
        else { url with RawQuery := (Cut rest₀ 63).2.1 }
      if rest.head? ≠ some 47 ∧ url.Scheme ≠ [] then .ok { url with Opaque := rest }
      else if rest.head? ≠ some 47 ∧ 58 ∈ (Cut rest 47).1 then .error .firstPathSegmentColon
      else if (url.Scheme ≠ [] ∨ rest.take 3 ≠ [47, 47, 47]) ∧ rest.take 2 = [47, 47] then
        match (rest.drop 2).span (fun b => b != 47) with
        | (authority, rest₁) =>
          match parseAuthority authority with
          | .error e => .error e
          | .ok (user, host) => setPath { url with User := user, Host := host } rest₁
      else setPath url rest

/-- `url.Parse(rawURL)`: `.ok u` is `(&u, nil)`, `.error e` is `(nil, e)`. -/
def Parse (rawURL : GoString) : Except ParseError URL :=
  match parse (Cut rawURL 35).1 with
  | .error e => .error e
  | .ok url =>
    let frag := (Cut rawURL 35).2.1
    if frag = [] then .ok url
    else
      match unescape frag encodeFragment with
      | .error e => .error e
      | .ok f => .ok { url with Fragment := f }

end url

/-- The world of a process with environment `getenv`, the Go libraries as
modelled above, and a blob service answering as `download`, `readFrom` and
`upload` say. -/
def goWorld (getenv : GoString → GoString)
    (download : BlobURL → Int → Int → Except GoString DownloadResponse)
    (readFrom : DownloadResponse → Nat → List Nat × GoError)
    (upload : List Nat → BlobURL → Nat → Nat → GoError) : World where
  Getenv := getenv
  NewSharedKeyCredential := NewSharedKeyCredential
  Parse := url.Parse
  Download := download
  ReadFrom := readFrom
  UploadBufferToBlockBlob := upload

/-! ## Concrete worlds -/

/-- An environment holding the two storage variables and nothing else. -/
def storageEnv (account key : GoString) : GoString → GoString := fun name =>
  if name = AzureStorageAccountEnvKey then account
  else if name = AzureStorageAccessKeyEnvKey then key
  else []

/-- A process with the two storage variables set to `account` and `key`, the
Go libraries, and a blob service that answers every download with `blob` and
accepts every upload. -/
def serviceWorld (account key : GoString) (blob : List Nat) : World :=
  goWorld (storageEnv account key) (fun b _ _ => .ok ⟨b⟩) (fun _ _ => (blob, none))
    (fun _ _ _ _ => none)

/-- `accountForTests` of `container_test.go`. -/
def accountForTests : GoString := str "azureteeaccount"

/-- `accessKeyForTests` of `container_test.go`. -/
def accessKeyForTests : GoString :=
  str "0jlvPT+Gw2+Y4ltGfuOXCkw91QQI82gsL2RjHbQPCmo7VlDneujTFnu+B7a/FC5tfVdCkVCZRti1Dpfw0Evaaw=="

/-- `containerNameForTests` of `container_test.go`. -/
def containerNameForTests : GoString := str "tee-container"

/-- `filePathForTests` of `container_test.go`. -/
def filePathForTests : GoString := str "teetest/data/A.secret"

/-- A byte of a host name or of a plain path segment: an ASCII letter, a
digit, a hyphen or a dot. -/
def url.plainByte (c : Nat) : Bool := url.isLetter c || url.isDigit c || c == 45 || c == 46

/-- An ASCII letter, a digit or a hyphen. -/
def isNameByte (c : Nat) : Bool := url.isLetter c || url.isDigit c || c == 45

/-- An ASCII letter or a digit. -/
def isAccountByte (c : Nat) : Bool := url.isLetter c || url.isDigit c

end azurehelper

namespace container

/-! ## `tee/container/container.go` -/

/-- A Go `[]byte`. -/
abbrev Bytes := List Nat

/-- A Go `error` of this package: `none` is `nil`. -/
abbrev GoError (ε : Type) := Option ε

/-- The `Container` interface: the five methods of an implementation whose
receiver has state `σ` and whose errors are of type `ε`. Each method returns
the receiver's new state along with its results. -/
structure Container (σ ε : Type) where
  /-- `Create() error`. -/
  Create : σ → σ × GoError ε
  /-- `Upload(algorithm []byte, dataList [][]byte) error`. -/
  Upload : σ → Bytes → List Bytes → σ × GoError ε
  /-- `Verify(algorithmHash string, dataHash []string) error`. -/
  Verify : σ → String → List String → σ × GoError ε
  /-- `Execute() ([]byte, error)`. -/
  Execute : σ → σ × Bytes × GoError ε
  /-- `Destroy() error`. -/
  Destroy : σ → σ × GoError ε

/-- `type Type int`. -/
abbrev «Type» := Int

/-- The value of `iota` in the `index`-th line of a `const` block. -/
def iota (index : Nat) : Int := index

/-- `Docker Type = iota`, the first line of the `const` block. -/
def Docker : «Type» := iota 0

/-- `Sibling`, the second line (the expression `iota` is repeated). -/
def Sibling : «Type» := iota 1

/-- `SGX`, the third line. -/
def SGX : «Type» := iota 2

/-! ## The session lifecycle of the specification

The source holds the interface only; the lifecycle its implementations are to
follow is taken from the specification (sections 3, 4.1, 4.2 and 7). -/

/-- Modelled from the spec: the `backendType` attribute of a session
(section 3), `DockerFolder | SiblingContainer | HardwareEnclave`; no such
enumeration is in the source. -/
inductive BackendType where
  | DockerFolder
  | SiblingContainer
  | HardwareEnclave
  deriving DecidableEq, Repr

/-- The mode a value of `Type` selects, after the comments of the source
("Docker is a folder ...", "Sibling is a sibling docker container ...", "SGX
is a Hardware chip CPU"); `none` for an integer that is none of the three
constants. -/
def «Type».mode (t : «Type») : Option BackendType :=
  if t = Docker then some .DockerFolder
  else if t = Sibling then some .SiblingContainer
  else if t = SGX then some .HardwareEnclave
  else none

/-- Modelled from the spec: the lifecycle states of section 4.1,
`Uninitialized → Created → Loaded → Verified → Executed → Destroyed`, plus
`Failed`; the source has no session type. -/
inductive State where
  | Uninitialized
  | Created
  | Loaded
  | Verified
  | Executed
  | Destroyed
  | Failed
  deriving DecidableEq, Repr

/-- Modelled from the spec: the error taxonomy of section 7, and the
"precondition error" of section 8 for a call made in a state it is not valid
from; the source has no error type. -/
inductive ErrorKind where
  | BackendUnavailable
  | InvalidInput
  | ArityMismatch
  | TransferError
  | IntegrityViolation
  | ExecutionFault
  | TeardownError
  | PreconditionError
  deriving DecidableEq, Repr

/-- Modelled from the spec: the session of section 3; the source has no
session type. -/
structure Session where
  backendType : BackendType
  state : State
  algorithmBytes : Bytes
  dataPayloads : List Bytes
  algorithmHash : String
  dataHashes : List String
  deriving DecidableEq, Repr

/-- Modelled from the spec: a session before `Create` (state `Uninitialized`,
nothing loaded). -/
def Session.new (backendType : BackendType) : Session :=
  ⟨backendType, .Uninitialized, [], [], "", []⟩

/-- Modelled from the spec: lower-casing for the case-insensitive comparison
of digests (section 4.2). -/
def toLower (s : String) : String := ⟨s.data.map Char.toLower⟩

/-- Modelled from the spec: `verify(expected, actual)` of section 4.2, a
case-insensitive exact string comparison. -/
def verify (expected actual : String) : Bool := toLower expected == toLower actual

/-- Modelled from the spec: one payload passes when its expected hash is not
the empty string (section 4.2: an empty expected hash is an automatic
`IntegrityViolation`) and `verify` accepts it against the computed digest. -/
def payloadVerified (computeHash : Bytes → String) (expected : String) (payload : Bytes) : Bool :=
  expected != "" && verify expected (computeHash payload)

/-- Modelled from the spec: every data payload passes against the expected
hash at the same ordinal position (the lists have equal length). -/
def dataVerified (computeHash : Bytes → String) : List String → List Bytes → Bool
  | [], [] => true
  | e :: es, p :: ps => payloadVerified computeHash e p && dataVerified computeHash es ps
  | _, _ => false

/-- Modelled from the spec: `Create()` of section 4.1, valid from
`Uninitialized`; `provisioned` is whether the backend could provision the
isolation mechanism (`BackendUnavailable` otherwise, fatal for the session,
which becomes `Failed`). A call from another state is a precondition error
and leaves the session as it is. -/
def Create (s : Session) (provisioned : Bool) : Session × GoError ErrorKind :=
  if s.state = .Uninitialized then
    if provisioned then ({ s with state := .Created }, none)
    else ({ s with state := .Failed }, some .BackendUnavailable)
  else (s, some .PreconditionError)

/-- Modelled from the spec: `Upload(algorithm, dataList)` of section 4.1, valid
from `Created` or `Verified`; `InvalidInput` for an empty algorithm or no data
entries; `transferred` is whether the backend stored the bytes (`TransferError`
otherwise, the session becoming `Failed`, which section 4.1 makes reachable
from any non-terminal state on error). A successful upload discards the
verification state (section 9). -/
def Upload (s : Session) (algorithm : Bytes) (dataList : List Bytes) (transferred : Bool) :
    Session × GoError ErrorKind :=
  if s.state = .Created ∨ s.state = .Verified then
    if algorithm = [] ∨ dataList = [] then (s, some .InvalidInput)
    else if transferred then
      ({ s with state := .Loaded, algorithmBytes := algorithm, dataPayloads := dataList,
                algorithmHash := "", dataHashes := [] }, none)
    else ({ s with state := .Failed }, some .TransferError)
  else (s, some .PreconditionError)

/-- Modelled from the spec: `Verify(algorithmHash, dataHashes)` of section 4.1,
valid only from `Loaded`: `ArityMismatch` unless there is one expected hash per
uploaded data payload, `IntegrityViolation` on any mismatch (the session stays
`Loaded`), and `Verified` otherwise. -/
def Verify (computeHash : Bytes → String) (s : Session) (algorithmHash : String)
    (dataHash : List String) : Session × GoError ErrorKind :=
  if s.state = .Loaded then
    if dataHash.length ≠ s.dataPayloads.length then (s, some .ArityMismatch)
    else if payloadVerified computeHash algorithmHash s.algorithmBytes &&
        dataVerified computeHash dataHash s.dataPayloads then
      ({ s with state := .Verified, algorithmHash := algorithmHash, dataHashes := dataHash }, none)
    else (s, some .IntegrityViolation)
  else (s, some .PreconditionError)

/-- Modelled from the spec: `Execute()` of section 4.1, valid only from
`Verified`; `output` is what the backend's run produced, `none` for a runtime
failure (`ExecutionFault`, the session becoming `Failed`). -/
def Execute (s : Session) (output : Option Bytes) : Session × Bytes × GoError ErrorKind :=
  if s.state = .Verified then
    match output with
    | some out => ({ s with state := .Executed }, out, none)
    | none => ({ s with state := .Failed }, [], some .ExecutionFault)
  else (s, [], some .PreconditionError)

/-- Modelled from the spec: `Destroy()` of section 4.1, valid from any state
but `Uninitialized` and `Destroyed`, a no-op returning success once the session
is `Destroyed`. It releases the payload bytes; `released` is whether the
backend released its resources (`TeardownError` otherwise, the session still
counting as destroyed, section 7). -/
def Destroy (s : Session) (released : Bool) : Session × GoError ErrorKind :=
  match s.state with
  | .Uninitialized => (s, some .PreconditionError)
  | .Destroyed => (s, none)
  | _ =>
    ({ s with state := .Destroyed, algorithmBytes := [], dataPayloads := [],
              algorithmHash := "", dataHashes := [] },
      if released then none else some .TeardownError)

/-- The lifecycle as an implementation of the `Container` interface, for a
backend that answers `provisioned`, `transferred`, `output` and `released`. -/
def sessionContainer (computeHash : Bytes → String) (provisioned transferred : Bool)
    (output : Option Bytes) (released : Bool) : Container Session ErrorKind where
  Create := fun s => Create s provisioned
  Upload := fun s algorithm dataList => Upload s algorithm dataList transferred
  Verify := fun s algorithmHash dataHash => Verify computeHash s algorithmHash dataHash
  Execute := fun s => Execute s output
  Destroy := fun s => Destroy s released

/-- A call on a session, with the backend's answer to it. -/
inductive Call where
  | Create (provisioned : Bool)
  | Upload (algorithm : Bytes) (dataList : List Bytes) (transferred : Bool)
  | Verify (algorithmHash : String) (dataHash : List String)
  | Execute (output : Option Bytes)
  | Destroy (released : Bool)
  deriving DecidableEq, Repr

/-- One call: the session after it and the error it returned. -/
def step (computeHash : Bytes → String) (s : Session) : Call → Session × GoError ErrorKind
  | .Create provisioned => Create s provisioned
  | .Upload algorithm dataList transferred => Upload s algorithm dataList transferred
  | .Verify algorithmHash dataHash => Verify computeHash s algorithmHash dataHash
  | .Execute output => ((Execute s output).1, (Execute s output).2.2)
  | .Destroy released => Destroy s released

/-- A sequence of calls on one session: the session after them, and the log
of each call with the error it returned. -/
def run (computeHash : Bytes → String) (s : Session) :
    List Call → Session × List (Call × GoError ErrorKind)
  | [] => (s, [])
  | c :: cs =>
    match step computeHash s c with
    | (s₁, err) =>
      match run computeHash s₁ cs with
      | (s₂, log) => (s₂, (c, err) :: log)

/-- The last call of a log that returned success, starting from `init`. -/
def lastSuccessfulFrom (init : Option Call) (log : List (Call × GoError ErrorKind)) : Option Call :=
  log.foldl (fun last e => if e.2 = none then some e.1 else last) init

/-- The last call of a log that returned success. -/
def lastSuccessful (log : List (Call × GoError ErrorKind)) : Option Call :=
  lastSuccessfulFrom none log

/-- What `Verified` means for a session whose last successful call is `last`:
that call was a `Verify`, and its hashes match the payloads the session holds. -/
def verifiedBy (computeHash : Bytes → String) (s : Session) (last : Option Call) : Prop :=
  s.state = .Verified →
    ∃ algorithmHash dataHash, last = some (.Verify algorithmHash dataHash) ∧
      payloadVerified computeHash algorithmHash s.algorithmBytes = true ∧
      dataVerified computeHash dataHash s.dataPayloads = true

/-- A digest for the examples: the bytes in lowercase hexadecimal (it has no
collisions; the digest of the specification is a parameter everywhere else). -/
def hexDigest (payload : Bytes) : String :=
  ⟨payload.flatMap (fun b => [Nat.digitChar (b / 16 % 16), Nat.digitChar (b % 16)])⟩

/-- The algorithm of the scenario of section 8, "sum.bin". -/
def sumBin : Bytes := azurehelper.str "sum.bin"

/-- The data payload of the scenario of section 8, "1,2,3". -/
def oneTwoThree : Bytes := azurehelper.str "1,2,3"

/-- The scenario of section 8 up to its `Verify`:
`Create()`, `Upload("sum.bin", ["1,2,3"])`, `Verify` with the digests of both. -/
def verifiedScenario : List Call :=
  [.Create true, .Upload sumBin [oneTwoThree] true,
    .Verify (hexDigest sumBin) [hexDigest oneTwoThree]]

end container

/-! # Theorems -/

namespace azurehelper

/-- C1: whatever the environment and the libraries do, `MakeContainerURL("")`
returns the zero container URL and an error whose text is exactly
"Error container name must be non-empty", and it does so before any call
outside the function: its trace is empty, no variable is looked up. -/
theorem MakeContainerURL_empty_name (w : World) :
    MakeContainerURL w [] =
      ⟨[], .returned (ContainerURL.zero, some (str "Error container name must be non-empty"))⟩ :=
  rfl

/-- C2: for a non-empty container name, when the value of
`AZURE_STORAGE_ACCOUNT` or of `AZURE_STORAGE_ACCESS_KEY` is empty (either or
both), `MakeContainerURL` returns the zero container URL and an error whose
text is exactly "Either the AZURE_STORAGE_ACCOUNT or AZURE_STORAGE_ACCESS_KEY
environment variable is not set"; the two lookups are the only calls it makes,
so no credential and no URL is constructed. -/
theorem MakeContainerURL_env_not_set (w : World) (containerName : GoString)
    (hname : containerName ≠ [])
    (henv : w.Getenv (str "AZURE_STORAGE_ACCOUNT") = [] ∨
      w.Getenv (str "AZURE_STORAGE_ACCESS_KEY") = []) :
    MakeContainerURL w containerName =
      ⟨[.Getenv (str "AZURE_STORAGE_ACCOUNT"), .Getenv (str "AZURE_STORAGE_ACCESS_KEY")],
        .returned (ContainerURL.zero, some (str
          "Either the AZURE_STORAGE_ACCOUNT or AZURE_STORAGE_ACCESS_KEY environment variable is not set"))⟩ := by
  have hmsg : str "Either the " ++ AzureStorageAccountEnvKey ++ str " or " ++
      AzureStorageAccessKeyEnvKey ++ str " environment variable is not set" = str
        "Either the AZURE_STORAGE_ACCOUNT or AZURE_STORAGE_ACCESS_KEY environment variable is not set" := by
    rfl
  have hlen : ¬ containerName.length = 0 := by
    simpa [List.length_eq_zero] using hname
  have henv' : (w.Getenv AzureStorageAccountEnvKey).length = 0 ∨
      (w.Getenv AzureStorageAccessKeyEnvKey).length = 0 := by
    simpa [List.length_eq_zero, AzureStorageAccountEnvKey, AzureStorageAccessKeyEnvKey] using henv
  unfold MakeContainerURL
  rw [if_neg hlen, if_pos henv', hmsg]
  rfl

/-- The statement of C2 at the test container name, with both variables unset. -/
theorem MakeContainerURL_env_not_set_witness :
    MakeContainerURL (serviceWorld [] [] []) (str "tee-container") =
      ⟨[.Getenv (str "AZURE_STORAGE_ACCOUNT"), .Getenv (str "AZURE_STORAGE_ACCESS_KEY")],
        .returned (ContainerURL.zero, some (str
          "Either the AZURE_STORAGE_ACCOUNT or AZURE_STORAGE_ACCESS_KEY environment variable is not set"))⟩ :=
  MakeContainerURL_env_not_set (serviceWorld [] [] []) (str "tee-container") (by decide)
    (Or.inl (by decide))

/-- No call that `MakeContainerURL` makes is a request to the blob service. -/
theorem MakeContainerURL_trace_no_request (w : World) (containerName : GoString) :
    ∀ ev ∈ (MakeContainerURL w containerName).trace, ev.isRequest = false := by
  unfold MakeContainerURL
  dsimp only
  split
  · simp
  · split
    · simp [Event.isRequest]
    · split
      · simp [Event.isRequest]
      · split <;> simp [Event.isRequest]

/-- C3: whenever `MakeContainerURL(containerName)` returns an error `e`,
`DownloadFilesFromContainer(containerName, filePath)` returns `(nil, e)` and
`UploadFileToContainer(containerName, filePath, data)` returns `e`; both make
exactly the calls `MakeContainerURL` made, none of which is a request to the
blob service, so the download and the upload are never reached. -/
theorem helpers_return_MakeContainerURL_error (w : World)
    (containerName filePath : GoString) (data : List Nat) (u : ContainerURL) (e : GoString)
    (h : (MakeContainerURL w containerName).outcome = .returned (u, some e)) :
    DownloadFilesFromContainer w containerName filePath =
        ⟨(MakeContainerURL w containerName).trace, .returned ([], some e)⟩ ∧
      UploadFileToContainer w containerName filePath data =
        ⟨(MakeContainerURL w containerName).trace, .returned (some e)⟩ ∧
      (∀ ev ∈ (DownloadFilesFromContainer w containerName filePath).trace,
        ev.isRequest = false) ∧
      (∀ ev ∈ (UploadFileToContainer w containerName filePath data).trace,
        ev.isRequest = false) := by
  have hd : DownloadFilesFromContainer w containerName filePath =
      ⟨(MakeContainerURL w containerName).trace, .returned ([], some e)⟩ := by
    unfold DownloadFilesFromContainer
    rcases hm : MakeContainerURL w containerName with ⟨t, o⟩
    rw [hm] at h
    simp only at h
    subst h
    rfl
  have hu : UploadFileToContainer w containerName filePath data =
      ⟨(MakeContainerURL w containerName).trace, .returned (some e)⟩ := by
    unfold UploadFileToContainer
    rcases hm : MakeContainerURL w containerName with ⟨t, o⟩
    rw [hm] at h
    simp only at h
    subst h
    rfl
  refine ⟨hd, hu, ?_, ?_⟩
  · rw [hd]; exact MakeContainerURL_trace_no_request w containerName
  · rw [hu]; exact MakeContainerURL_trace_no_request w containerName

/-- The statement of C3 at the empty container name, against a service that
would have answered. -/
theorem helpers_return_MakeContainerURL_error_witness :
    DownloadFilesFromContainer (serviceWorld accountForTests accessKeyForTests [1]) []
        filePathForTests =
        ⟨[], .returned ([], some (str "Error container name must be non-empty"))⟩ ∧
      UploadFileToContainer (serviceWorld accountForTests accessKeyForTests [1]) []
        filePathForTests [72, 105] =
        ⟨[], .returned (some (str "Error container name must be non-empty"))⟩ ∧
      (∀ ev ∈ (DownloadFilesFromContainer (serviceWorld accountForTests accessKeyForTests [1]) []
        filePathForTests).trace, ev.isRequest = false) ∧
      (∀ ev ∈ (UploadFileToContainer (serviceWorld accountForTests accessKeyForTests [1]) []
        filePathForTests [72, 105]).trace, ev.isRequest = false) :=
  helpers_return_MakeContainerURL_error (serviceWorld accountForTests accessKeyForTests [1]) []
    filePathForTests [72, 105] ContainerURL.zero (str "Error container name must be non-empty") rfl

/-- Whenever the name and both variables are non-empty and the construction of
the shared-key credential fails with error text `err`, `MakeContainerURL`
returns the zero container URL and the error "Invalid credentials with error: "
followed by `err`. -/
theorem MakeContainerURL_credential_error (w : World) (containerName err : GoString)
    (hname : containerName ≠ [])
    (haccount : w.Getenv AzureStorageAccountEnvKey ≠ [])
    (hkey : w.Getenv AzureStorageAccessKeyEnvKey ≠ [])
    (hcred : w.NewSharedKeyCredential (w.Getenv AzureStorageAccountEnvKey)
      (w.Getenv AzureStorageAccessKeyEnvKey) = .error err) :
    (MakeContainerURL w containerName).outcome =
      .returned (ContainerURL.zero, some (str "Invalid credentials with error: " ++ err)) := by
  have hlen : ¬ containerName.length = 0 := by
    simpa [List.length_eq_zero] using hname
  have henv : ¬ ((w.Getenv AzureStorageAccountEnvKey).length = 0 ∨
      (w.Getenv AzureStorageAccessKeyEnvKey).length = 0) := by
    simpa [List.length_eq_zero] using And.intro haccount hkey
  unfold MakeContainerURL
  rw [if_neg hlen, if_neg henv]
  simp only [hcred]

/-- C4: with the Go libraries, for a non-empty container name, a non-empty
account name and a non-empty access key that is not valid standard base64
(the decoder of `encoding/base64` returns the error `err` on it, so the
construction of the shared-key credential fails with `err`), `MakeContainerURL`
returns the zero container URL and the error "Invalid credentials with error: "
followed by `err`. -/
theorem MakeContainerURL_invalid_credentials (getenv : GoString → GoString)
    (download : BlobURL → Int → Int → Except GoString DownloadResponse)
    (readFrom : DownloadResponse → Nat → List Nat × GoError)
    (upload : List Nat → BlobURL → Nat → Nat → GoError) (containerName err : GoString)
    (hname : containerName ≠ [])
    (haccount : getenv (str "AZURE_STORAGE_ACCOUNT") ≠ [])
    (hkey : getenv (str "AZURE_STORAGE_ACCESS_KEY") ≠ [])
    (hbase64 : (base64.DecodeString (getenv (str "AZURE_STORAGE_ACCESS_KEY"))).2 = some err) :
    (MakeContainerURL (goWorld getenv download readFrom upload) containerName).outcome =
      .returned (ContainerURL.zero, some (str "Invalid credentials with error: " ++ err)) := by
  apply MakeContainerURL_credential_error _ _ _ hname haccount hkey
  show NewSharedKeyCredential (getenv (str "AZURE_STORAGE_ACCOUNT"))
    (getenv (str "AZURE_STORAGE_ACCESS_KEY")) = _
  unfold NewSharedKeyCredential
  rcases hd : base64.DecodeString (getenv (str "AZURE_STORAGE_ACCESS_KEY")) with ⟨bytes, e⟩
  rw [hd] at hbase64
  simp only at hbase64
  subst hbase64
  rfl

/-- The statement of C4 at the key of `Test_DownloadFilesFromContainer_ErrEnv`,
"accessKeyForTests": the decoder of `encoding/base64` stops at input byte 16. -/
theorem MakeContainerURL_invalid_credentials_witness :
    (MakeContainerURL (serviceWorld accountForTests (str "accessKeyForTests") [])
        containerNameForTests).outcome =
      .returned (ContainerURL.zero, some (str "Invalid credentials with error: " ++
        str "illegal base64 data at input byte 16")) :=
  MakeContainerURL_invalid_credentials (storageEnv accountForTests (str "accessKeyForTests"))
    _ _ _ containerNameForTests (str "illegal base64 data at input byte 16") (by decide)
    (by decide) (by decide) (by decide)

/-- C5, at a failing input: with the account and key of the tests and the
container name "%", `url.Parse` rejects
"https://azureteeaccount.blob.core.windows.net/%" (a malformed escape), its
error is dropped, and `MakeContainerURL` panics on the nil URL instead of
returning an error. -/
theorem MakeContainerURL_parse_error_panics :
    url.Parse (str "https://azureteeaccount.blob.core.windows.net/%") =
        .error (.EscapeError (str "%")) ∧
      (MakeContainerURL (serviceWorld accountForTests accessKeyForTests []) (str "%")).outcome =
        .panicked nilDereference :=
  ⟨rfl, rfl⟩

/-! ## `url.Parse` on the URL of a container -/

namespace url

open encoding

theorem plainByte_bounds (c : Nat) (h : plainByte c = true) :
    32 ≤ c ∧ c ≠ 127 ∧ c ≠ 35 ∧ c ≠ 37 ∧ c ≠ 43 ∧ c ≠ 47 ∧ c ≠ 58 ∧ c ≠ 63 ∧ c ≠ 64 ∧
      c ≠ 91 ∧ c ≠ 42 := by
  simp only [plainByte, isLetter, isDigit, Bool.or_eq_true, Bool.and_eq_true, decide_eq_true_eq,
    beq_iff_eq] at h
  omega

theorem shouldEscape_plainByte (c : Nat) (mode : encoding) (h : plainByte c = true) :
    shouldEscape c mode = false := by
  by_cases hl : (isLetter c || isDigit c) = true
  · simp [shouldEscape, hl]
  · have h' : c = 45 ∨ c = 46 := by
      simp only [plainByte, Bool.or_eq_true, beq_iff_eq] at h hl
      tauto
    rcases h' with rfl | rfl <;> cases mode <;> rfl

theorem shouldEscape_slash_path : shouldEscape 47 encodePath = false := by rfl

theorem unescapeCount_plain (mode : encoding) (s : GoString)
    (h : ∀ c ∈ s, c ≠ 37 ∧ ((mode = encodeHost ∨ mode = encodeZone) →
      shouldEscape c encodeHost = false)) :
    unescapeCount mode s = .ok 0 := by
  induction s with
  | nil => rfl
  | cons c rest ih =>
    have hc := h c (List.mem_cons_self c rest)
    have ih' := ih (fun d hd => h d (List.mem_cons_of_mem c hd))
    unfold unescapeCount
    rw [if_neg hc.1]
    by_cases h43 : c = 43
    · rw [if_pos h43]; exact ih'
    · rw [if_neg h43]
      by_cases hm : mode = encodeHost ∨ mode = encodeZone
      · rw [if_neg (by simp [hc.2 hm])]; exact ih'
      · rw [if_neg (fun hh => hm hh.1)]; exact ih'

theorem unescape_plain (mode : encoding) (s : GoString)
    (h : ∀ c ∈ s, c ≠ 37 ∧ ((mode = encodeHost ∨ mode = encodeZone) →
      shouldEscape c encodeHost = false))
    (hmode : mode ≠ encodeQueryComponent) :
    unescape s mode = .ok s := by
  unfold unescape
  rw [unescapeCount_plain mode s h]
  simp [hmode]

theorem escape_plain (mode : encoding) (s : GoString)
    (h : ∀ c ∈ s, shouldEscape c mode = false) : escape s mode = s := by
  induction s with
  | nil => rfl
  | cons c rest ih =>
    have hc := h c (List.mem_cons_self c rest)
    have ih' := ih (fun d hd => h d (List.mem_cons_of_mem c hd))
    unfold escape at ih' ⊢
    rw [List.flatMap_cons, ih']
    simp [hc]

theorem span_ne_of_not_mem (sep : Nat) (s : GoString) (h : sep ∉ s) :
    s.span (fun b => b != sep) = (s, []) := by
  induction s with
  | nil => rfl
  | cons c rest ih =>
    have hc : c ≠ sep := fun e => h (e ▸ List.mem_cons_self c rest)
    have ih' := ih (fun hd => h (List.mem_cons_of_mem c hd))
    rw [List.span_eq_take_drop] at ih' ⊢
    simp only [Prod.mk.injEq] at ih'
    simp [List.takeWhile_cons, List.dropWhile_cons, hc, ih'.1, ih'.2]

theorem span_ne_append (sep : Nat) (l r : GoString) (h : sep ∉ l) :
    (l ++ sep :: r).span (fun b => b != sep) = (l, sep :: r) := by
  induction l with
  | nil => simp [List.span_eq_take_drop, List.takeWhile_cons, List.dropWhile_cons]
  | cons c rest ih =>
    have hc : c ≠ sep := fun e => h (e ▸ List.mem_cons_self c rest)
    have ih' := ih (fun hd => h (List.mem_cons_of_mem c hd))
    rw [List.span_eq_take_drop] at ih' ⊢
    simp only [Prod.mk.injEq] at ih'
    simp [List.takeWhile_cons, List.dropWhile_cons, hc, ih'.1, ih'.2]

theorem Cut_of_not_mem (sep : Nat) (s : GoString) (h : sep ∉ s) : Cut s sep = (s, [], false) := by
  unfold Cut
  rw [span_ne_of_not_mem sep s h]

theorem LastIndex_of_not_mem (sep : Nat) (s : GoString) (h : sep ∉ s) : LastIndex s sep = none := by
  unfold LastIndex
  rw [Cut_of_not_mem sep s.reverse (by simpa using h)]

theorem parseHost_plain (host : GoString) (hhost : ∀ c ∈ host, plainByte c = true) :
    parseHost host = .ok host := by
  have h91 : host.head? ≠ some 91 := by
    intro h
    have hm : (91 : Nat) ∈ host := List.mem_of_mem_head? (by rw [h]; rfl)
    have := plainByte_bounds 91 (hhost 91 hm)
    omega
  have h58 : (58 : Nat) ∉ host := fun hm => by
    have := plainByte_bounds 58 (hhost 58 hm)
    omega
  have hun : unescape host encodeHost = .ok host :=
    unescape_plain encodeHost host
      (fun c hc => ⟨(plainByte_bounds c (hhost c hc)).2.2.2.1,
        fun _ => shouldEscape_plainByte c encodeHost (hhost c hc)⟩)
      (by decide)
  unfold parseHost
  simp only [h91, if_false, LastIndex_of_not_mem 58 host h58, hun]

theorem parseAuthority_plain (host : GoString) (hhost : ∀ c ∈ host, plainByte c = true) :
    parseAuthority host = .ok (none, host) := by
  have h64 : (64 : Nat) ∉ host := fun hm => by
    have := plainByte_bounds 64 (hhost 64 hm)
    omega
  unfold parseAuthority
  simp only [LastIndex_of_not_mem 64 host h64, parseHost_plain host hhost]

theorem setPath_plain (u : URL) (path : GoString) (hpath : ∀ c ∈ path, plainByte c = true) :
    setPath u (47 :: path) = .ok { u with Path := 47 :: path, RawPath := [] } := by
  have hun : unescape (47 :: path) encodePath = .ok (47 :: path) :=
    unescape_plain encodePath (47 :: path)
      (fun c hc => by
        refine ⟨?_, fun h => by rcases h with h | h <;> cases h⟩
        rcases List.mem_cons.1 hc with h | h
        · subst h; decide
        · exact (plainByte_bounds c (hpath c h)).2.2.2.1)
      (by decide)
  have hesc : escape (47 :: path) encodePath = 47 :: path :=
    escape_plain encodePath (47 :: path) (fun c hc => by
      rcases List.mem_cons.1 hc with h | h
      · subst h; rfl
      · exact shouldEscape_plainByte c encodePath (hpath c h))
  unfold setPath
  simp only [hun, hesc, if_true]

theorem Parse_https_host_path (host path : GoString)
    (hhost : ∀ c ∈ host, plainByte c = true) (hpath : ∀ c ∈ path, plainByte c = true) :
    Parse ([104, 116, 116, 112, 115, 58, 47, 47] ++ host ++ 47 :: path) =
      .ok { Scheme := [104, 116, 116, 112, 115], Host := host, Path := 47 :: path } := by
  have hall : ∀ c ∈ host ++ 47 :: path, 32 ≤ c ∧ c ≠ 127 ∧ c ≠ 35 ∧ c ≠ 63 := by
    intro c hc
    rcases List.mem_append.1 hc with h | h
    · have := plainByte_bounds c (hhost c h); omega
    · rcases List.mem_cons.1 h with h | h
      · subst h; decide
      · have := plainByte_bounds c (hpath c h); omega
  have h47 : (47 : Nat) ∉ host := fun hm => by
    have := plainByte_bounds 47 (hhost 47 hm)
    omega
  have hspan := span_ne_append 47 host path h47
  have hraw : [104, 116, 116, 112, 115, 58, 47, 47] ++ host ++ 47 :: path =
      104 :: 116 :: 116 :: 112 :: 115 :: 58 :: 47 :: 47 :: (host ++ 47 :: path) := by simp
  rw [hraw]
  generalize host ++ 47 :: path = rest at hall hspan
  have h35 : (35 : Nat) ∉ 104 :: 116 :: 116 :: 112 :: 115 :: 58 :: 47 :: 47 :: rest := by
    simp only [List.mem_cons, not_or]
    refine ⟨by decide, by decide, by decide, by decide, by decide, by decide, by decide, by decide, ?_⟩
    intro h; exact (hall 35 h).2.2.1 rfl
  have h63 : (63 : Nat) ∉ 47 :: 47 :: rest := by
    simp only [List.mem_cons, not_or]
    refine ⟨by decide, by decide, ?_⟩
    intro h; exact (hall 63 h).2.2.2 rfl
  have hctl : stringContainsCTLByte (104 :: 116 :: 116 :: 112 :: 115 :: 58 :: 47 :: 47 :: rest) = false := by
    simp only [stringContainsCTLByte, List.any_cons, Bool.or_eq_false_iff]
    refine ⟨by decide, by decide, by decide, by decide, by decide, by decide, by decide, by decide, ?_⟩
    rw [List.any_eq_false]
    intro c hc
    have := hall c hc
    simp; omega
  have hscheme : getScheme (104 :: 116 :: 116 :: 112 :: 115 :: 58 :: 47 :: 47 :: rest) =
      .ok ([104, 116, 116, 112, 115], 47 :: 47 :: rest) := by
    simp [getScheme, getSchemeFrom, isLetter, isDigit]
  have hcount : List.count 63 (47 :: 47 :: rest) = 0 := List.count_eq_zero_of_not_mem h63
  have hlower : ToLower [104, 116, 116, 112, 115] = [104, 116, 116, 112, 115] := by decide
  have hparse : parse (104 :: 116 :: 116 :: 112 :: 115 :: 58 :: 47 :: 47 :: rest) =
      .ok { Scheme := [104, 116, 116, 112, 115], Host := host, Path := 47 :: path } := by
    unfold parse
    rw [hctl]
    simp only [Bool.false_eq_true, if_false]
    rw [if_neg (by simp)]
    rw [hscheme]
    simp only [hcount, hlower, Cut_of_not_mem 63 _ h63]
    rw [List.span_eq_take_drop, Prod.mk.injEq] at hspan
    simp [hspan.1, hspan.2, parseAuthority_plain host hhost, setPath_plain _ path hpath]
  unfold Parse
  rw [Cut_of_not_mem 35 _ h35]
  simp only [hparse, if_true]

end url

/-- When the name and both variables are non-empty, the credential is
constructed and the URL parses, `MakeContainerURL` returns the container URL
built from them and a nil error. -/
theorem MakeContainerURL_ok (w : World) (containerName : GoString)
    (credential : SharedKeyCredential) (u : URL)
    (hname : containerName ≠ [])
    (haccount : w.Getenv AzureStorageAccountEnvKey ≠ [])
    (hkey : w.Getenv AzureStorageAccessKeyEnvKey ≠ [])
    (hcred : w.NewSharedKeyCredential (w.Getenv AzureStorageAccountEnvKey)
      (w.Getenv AzureStorageAccessKeyEnvKey) = .ok credential)
    (hparse : w.Parse (str "https://" ++ w.Getenv AzureStorageAccountEnvKey ++
      str ".blob.core.windows.net/" ++ containerName) = .ok u) :
    (MakeContainerURL w containerName).outcome =
      .returned (NewContainerURL u (NewPipeline credential), none) := by
  have hlen : ¬ containerName.length = 0 := by
    simpa [List.length_eq_zero] using hname
  have henv : ¬ ((w.Getenv AzureStorageAccountEnvKey).length = 0 ∨
      (w.Getenv AzureStorageAccessKeyEnvKey).length = 0) := by
    simpa [List.length_eq_zero] using And.intro haccount hkey
  unfold MakeContainerURL
  rw [if_neg hlen, if_neg henv]
  simp only [hcred, hparse]

theorem isAccountByte_plain (c : Nat) (h : isAccountByte c = true) : url.plainByte c = true := by
  simp only [isAccountByte, url.plainByte, Bool.or_eq_true] at h ⊢
  tauto

theorem isNameByte_plain (c : Nat) (h : isNameByte c = true) : url.plainByte c = true := by
  simp only [isNameByte, url.plainByte, Bool.or_eq_true] at h ⊢
  tauto

/-- C9: with the Go libraries, for every non-empty container name made of
ASCII letters (either case), digits and hyphens, of any length, an account
name that is a non-empty string of ASCII letters and digits and an access key
that is non-empty and decodes as standard base64, `MakeContainerURL` returns a
nil error, with the container URL `https://<account>.blob.core.windows.net/<name>`
and the decoded key: non-emptiness is the only check made on the name. -/
theorem MakeContainerURL_accepts_name (getenv : GoString → GoString)
    (download : BlobURL → Int → Int → Except GoString DownloadResponse)
    (readFrom : DownloadResponse → Nat → List Nat × GoError)
    (upload : List Nat → BlobURL → Nat → Nat → GoError) (containerName : GoString)
    (hne : containerName ≠ [])
    (hname : ∀ c ∈ containerName, isNameByte c = true)
    (haccount_ne : getenv (str "AZURE_STORAGE_ACCOUNT") ≠ [])
    (haccount : ∀ c ∈ getenv (str "AZURE_STORAGE_ACCOUNT"), isAccountByte c = true)
    (hkey_ne : getenv (str "AZURE_STORAGE_ACCESS_KEY") ≠ [])
    (hkey : (base64.DecodeString (getenv (str "AZURE_STORAGE_ACCESS_KEY"))).2 = none) :
    (MakeContainerURL (goWorld getenv download readFrom upload) containerName).outcome =
      .returned (NewContainerURL
        { Scheme := str "https",
          Host := getenv (str "AZURE_STORAGE_ACCOUNT") ++ str ".blob.core.windows.net",
          Path := str "/" ++ containerName }
        (NewPipeline ⟨getenv (str "AZURE_STORAGE_ACCOUNT"),
          (base64.DecodeString (getenv (str "AZURE_STORAGE_ACCESS_KEY"))).1⟩), none) := by
  apply MakeContainerURL_ok _ _ _ _ hne haccount_ne hkey_ne
  · show NewSharedKeyCredential (getenv (str "AZURE_STORAGE_ACCOUNT"))
      (getenv (str "AZURE_STORAGE_ACCESS_KEY")) = _
    unfold NewSharedKeyCredential
    rcases hd : base64.DecodeString (getenv (str "AZURE_STORAGE_ACCESS_KEY")) with ⟨bytes, err⟩
    rw [hd] at hkey
    simp only at hkey
    subst hkey
    rfl
  · show url.Parse (str "https://" ++ getenv (str "AZURE_STORAGE_ACCOUNT") ++
      str ".blob.core.windows.net/" ++ containerName) = _
    have hhost : ∀ c ∈ getenv (str "AZURE_STORAGE_ACCOUNT") ++ str ".blob.core.windows.net",
        url.plainByte c = true := by
      intro c hc
      rcases List.mem_append.1 hc with h | h
      · exact isAccountByte_plain c (haccount c h)
      · have hdot : ∀ d ∈ str ".blob.core.windows.net", url.plainByte d = true := by decide
        exact hdot c h
    have hpath : ∀ c ∈ containerName, url.plainByte c = true :=
      fun c hc => isNameByte_plain c (hname c hc)
    have hlit : str ".blob.core.windows.net/" = str ".blob.core.windows.net" ++ [47] := by decide
    have key := url.Parse_https_host_path _ _ hhost hpath
    have hshape : str "https://" ++ getenv (str "AZURE_STORAGE_ACCOUNT") ++
        str ".blob.core.windows.net/" ++ containerName =
        [104, 116, 116, 112, 115, 58, 47, 47] ++
          (getenv (str "AZURE_STORAGE_ACCOUNT") ++ str ".blob.core.windows.net") ++
          47 :: containerName := by
      rw [hlit, show str "https://" = [104, 116, 116, 112, 115, 58, 47, 47] from by decide]
      simp only [List.append_assoc, List.singleton_append]
    rw [hshape, key]
    rfl

/-- The statement of C9 at "containerNameForTests", the name with upper-case
letters of `Test_DownloadFilesFromContainer_ErrContainerName`, with the account
and key of the tests. -/
theorem MakeContainerURL_accepts_name_witness :
    (MakeContainerURL (serviceWorld accountForTests accessKeyForTests [])
        (str "containerNameForTests")).outcome =
      .returned (NewContainerURL
        { Scheme := str "https",
          Host := str "azureteeaccount" ++ str ".blob.core.windows.net",
          Path := str "/" ++ str "containerNameForTests" }
        (NewPipeline ⟨str "azureteeaccount", (base64.DecodeString accessKeyForTests).1⟩), none) :=
  MakeContainerURL_accepts_name (storageEnv accountForTests accessKeyForTests) _ _ _
    (str "containerNameForTests") (by decide) (by decide) (by decide) (by decide) (by decide)
    (by rfl)

end azurehelper

namespace container

theorem step_verifiedBy (computeHash : Bytes → String) (s : Session) (last : Option Call)
    (c : Call) (h : verifiedBy computeHash s last) :
    verifiedBy computeHash (step computeHash s c).1
      (if (step computeHash s c).2 = none then some c else last) := by
  cases c with
  | Create provisioned =>
    simp only [step, Create]
    by_cases hs : s.state = .Uninitialized
    · cases provisioned <;> simp [hs, verifiedBy]
    · simpa [hs] using h
  | Upload algorithm dataList transferred =>
    simp only [step, Upload]
    by_cases hs : s.state = .Created ∨ s.state = .Verified
    · by_cases hi : algorithm = [] ∨ dataList = []
      · simpa [hs, hi] using h
      · cases transferred <;> simp [hs, hi, verifiedBy]
    · simpa [hs] using h
  | Verify algorithmHash dataHash =>
    simp only [step, Verify]
    by_cases hs : s.state = .Loaded
    · by_cases hl : dataHash.length ≠ s.dataPayloads.length
      · simpa [hs, hl] using h
      · by_cases hv : (payloadVerified computeHash algorithmHash s.algorithmBytes &&
            dataVerified computeHash dataHash s.dataPayloads) = true
        · simp only [if_pos hs, if_neg hl, if_pos hv]
          rw [Bool.and_eq_true] at hv
          intro _
          exact ⟨algorithmHash, dataHash, by simp, hv.1, hv.2⟩
        · simp only [if_pos hs, if_neg hl, if_neg hv]
          simpa using h
    · simpa [hs] using h
  | Execute output =>
    simp only [step, Execute]
    by_cases hs : s.state = .Verified
    · cases output <;> simp [hs, verifiedBy]
    · simpa [hs] using h
  | Destroy released =>
    obtain ⟨backendType, state, algorithmBytes, dataPayloads, algorithmHash, dataHashes⟩ := s
    cases state <;> cases released <;> simp [step, Destroy, verifiedBy] at h ⊢

theorem run_verifiedBy (computeHash : Bytes → String) (calls : List Call) (s : Session)
    (last : Option Call) (h : verifiedBy computeHash s last) :
    verifiedBy computeHash (run computeHash s calls).1
      (lastSuccessfulFrom last (run computeHash s calls).2) := by
  induction calls generalizing s last with
  | nil => simpa [run, lastSuccessfulFrom] using h
  | cons c cs ih =>
    have := ih (step computeHash s c).1 _ (step_verifiedBy computeHash s last c h)
    simpa [run, lastSuccessfulFrom] using this

/-- C6: in the lifecycle of the specification, after any sequence of calls on a
fresh session, `Execute` returns success only if the last call that returned
success was a `Verify`, whose hashes match the payloads the session holds; in
particular, when the last successful call was an `Upload` (a first upload, or
a re-upload after an earlier successful `Verify`), `Execute` returns an error. -/
theorem Execute_only_after_Verify (computeHash : Bytes → String) (backendType : BackendType)
    (calls : List Call) (output : Option Bytes) :
    ((Execute (run computeHash (Session.new backendType) calls).1 output).2.2 = none →
      ∃ algorithmHash dataHash,
        lastSuccessful (run computeHash (Session.new backendType) calls).2 =
          some (.Verify algorithmHash dataHash) ∧
        payloadVerified computeHash algorithmHash
          (run computeHash (Session.new backendType) calls).1.algorithmBytes = true ∧
        dataVerified computeHash dataHash
          (run computeHash (Session.new backendType) calls).1.dataPayloads = true) ∧
      (∀ algorithm dataList transferred,
        lastSuccessful (run computeHash (Session.new backendType) calls).2 =
          some (.Upload algorithm dataList transferred) →
        (Execute (run computeHash (Session.new backendType) calls).1 output).2.2 ≠ none) := by
  have hinv := run_verifiedBy computeHash calls (Session.new backendType) none
    (by intro hs; cases hs)
  have hstate : (Execute (run computeHash (Session.new backendType) calls).1 output).2.2 = none →
      (run computeHash (Session.new backendType) calls).1.state = .Verified := by
    intro h
    unfold Execute at h
    by_contra hs
    rw [if_neg hs] at h
    cases h
  refine ⟨fun h => hinv (hstate h), ?_⟩
  intro algorithm dataList transferred hlast h
  obtain ⟨algorithmHash, dataHash, hv, _⟩ := hinv (hstate h)
  rw [lastSuccessful] at hlast
  rw [hlast] at hv
  cases hv

/-- The statement of C6 on the scenario of section 8: after `Create`, `Upload`
and a matching `Verify`, `Execute` succeeds and the last successful call is
that `Verify`; after one more `Upload`, `Execute` returns an error. -/
theorem Execute_only_after_Verify_witness :
    (Execute (run hexDigest (Session.new .DockerFolder) verifiedScenario).1
        (some (azurehelper.str "6"))).2.2 = none ∧
      (∃ algorithmHash dataHash,
        lastSuccessful (run hexDigest (Session.new .DockerFolder) verifiedScenario).2 =
          some (.Verify algorithmHash dataHash) ∧
        payloadVerified hexDigest algorithmHash
          (run hexDigest (Session.new .DockerFolder) verifiedScenario).1.algorithmBytes = true ∧
        dataVerified hexDigest dataHash
          (run hexDigest (Session.new .DockerFolder) verifiedScenario).1.dataPayloads = true) ∧
      (Execute (run hexDigest (Session.new .DockerFolder)
        (verifiedScenario ++ [Call.Upload sumBin [oneTwoThree] true])).1
          (some (azurehelper.str "6"))).2.2 ≠ none :=
  ⟨rfl,
    (Execute_only_after_Verify hexDigest .DockerFolder verifiedScenario
      (some (azurehelper.str "6"))).1 rfl,
    (Execute_only_after_Verify hexDigest .DockerFolder
      (verifiedScenario ++ [Call.Upload sumBin [oneTwoThree] true])
      (some (azurehelper.str "6"))).2 sumBin [oneTwoThree] true rfl⟩

theorem payloadVerified_iff (computeHash : Bytes → String) (expected : String) (payload : Bytes) :
    payloadVerified computeHash expected payload = true ↔
      expected ≠ "" ∧ toLower expected = toLower (computeHash payload) := by
  simp [payloadVerified, verify]

theorem dataVerified_iff (computeHash : Bytes → String) (es : List String) (ps : List Bytes) :
    dataVerified computeHash es ps = true ↔
      es.length = ps.length ∧
        ∀ (i : Nat) (h₁ : i < es.length) (h₂ : i < ps.length),
          payloadVerified computeHash es[i] ps[i] = true := by
  induction es generalizing ps with
  | nil =>
    cases ps with
    | nil => simp [dataVerified]
    | cons p ps => simp [dataVerified]
  | cons e es ih =>
    cases ps with
    | nil => simp [dataVerified]
    | cons p ps =>
      simp only [dataVerified, Bool.and_eq_true, ih ps, List.length_cons, Nat.add_right_cancel_iff]
      constructor
      · rintro ⟨h0, hl, hr⟩
        refine ⟨hl, ?_⟩
        intro i h₁ h₂
        cases i with
        | zero => simpa using h0
        | succ i => simpa using hr i (by simpa using h₁) (by simpa using h₂)
      · rintro ⟨hl, hr⟩
        refine ⟨by simpa using hr 0 (by simp) (by simp), hl, ?_⟩
        intro i h₁ h₂
        simpa using hr (i + 1) (by simpa using h₁) (by simpa using h₂)

/-- C7: in the lifecycle of the specification, `Verify(algorithmHash, dataHash)`
succeeds only from `Loaded`, with one expected hash per uploaded data payload,
and with every expected hash (the algorithm's and each data item's) non-empty
and equal, case-insensitively, to the computed digest of the payload at the
same position. From `Loaded`, a length mismatch gives `ArityMismatch`; with
equal lengths, an empty expected hash or any single mismatch gives
`IntegrityViolation`; in both cases the session is returned unchanged, still
`Loaded`. When everything matches, `Verify` succeeds and the session is
`Verified`. -/
theorem Verify_integrity (computeHash : Bytes → String) (s : Session) (algorithmHash : String)
    (dataHash : List String) :
    ((Verify computeHash s algorithmHash dataHash).2 = none →
        s.state = .Loaded ∧ dataHash.length = s.dataPayloads.length ∧
        (algorithmHash ≠ "" ∧ toLower algorithmHash = toLower (computeHash s.algorithmBytes)) ∧
        ∀ (i : Nat) (h₁ : i < dataHash.length) (h₂ : i < s.dataPayloads.length),
          dataHash[i] ≠ "" ∧ toLower dataHash[i] = toLower (computeHash s.dataPayloads[i])) ∧
      (s.state = .Loaded → dataHash.length ≠ s.dataPayloads.length →
        Verify computeHash s algorithmHash dataHash = (s, some .ArityMismatch)) ∧
      (s.state = .Loaded → dataHash.length = s.dataPayloads.length →
        (algorithmHash = "" ∨ toLower algorithmHash ≠ toLower (computeHash s.algorithmBytes) ∨
          ∃ (i : Nat) (h₁ : i < dataHash.length) (h₂ : i < s.dataPayloads.length),
            dataHash[i] = "" ∨ toLower dataHash[i] ≠ toLower (computeHash s.dataPayloads[i])) →
        Verify computeHash s algorithmHash dataHash = (s, some .IntegrityViolation)) ∧
      (s.state = .Loaded → dataHash.length = s.dataPayloads.length →
        (algorithmHash ≠ "" ∧ toLower algorithmHash = toLower (computeHash s.algorithmBytes)) →
        (∀ (i : Nat) (h₁ : i < dataHash.length) (h₂ : i < s.dataPayloads.length),
          dataHash[i] ≠ "" ∧ toLower dataHash[i] = toLower (computeHash s.dataPayloads[i])) →
        (Verify computeHash s algorithmHash dataHash).2 = none ∧
          (Verify computeHash s algorithmHash dataHash).1.state = .Verified) := by
  have hdata : dataVerified computeHash dataHash s.dataPayloads = true ↔
      dataHash.length = s.dataPayloads.length ∧
        ∀ (i : Nat) (h₁ : i < dataHash.length) (h₂ : i < s.dataPayloads.length),
          dataHash[i] ≠ "" ∧ toLower dataHash[i] = toLower (computeHash s.dataPayloads[i]) := by
    rw [dataVerified_iff]
    simp only [payloadVerified_iff]
  have halg := payloadVerified_iff computeHash algorithmHash s.algorithmBytes
  refine ⟨?_, ?_, ?_, ?_⟩
  · intro h
    unfold Verify at h
    by_cases hs : s.state = .Loaded
    · rw [if_pos hs] at h
      by_cases hl : dataHash.length ≠ s.dataPayloads.length
      · rw [if_pos hl] at h; cases h
      · rw [if_neg hl] at h
        by_cases hv : (payloadVerified computeHash algorithmHash s.algorithmBytes &&
            dataVerified computeHash dataHash s.dataPayloads) = true
        · rw [Bool.and_eq_true] at hv
          exact ⟨hs, not_not.1 hl, halg.1 hv.1, (hdata.1 hv.2).2⟩
        · rw [if_neg hv] at h; cases h
    · rw [if_neg hs] at h; cases h
  · intro hs hl
    unfold Verify
    rw [if_pos hs, if_pos hl]
  · intro hs hl hbad
    have hv : ¬ (payloadVerified computeHash algorithmHash s.algorithmBytes &&
        dataVerified computeHash dataHash s.dataPayloads) = true := by
      rw [Bool.and_eq_true]
      rintro ⟨ha, hd⟩
      have ha' := halg.1 ha
      have hd' := (hdata.1 hd).2
      rcases hbad with h | h | ⟨i, h₁, h₂, h⟩
      · exact ha'.1 h
      · exact h ha'.2
      · rcases h with h | h
        · exact (hd' i h₁ h₂).1 h
        · exact h (hd' i h₁ h₂).2
    unfold Verify
    rw [if_pos hs, if_neg (not_not.2 hl), if_neg hv]
  · intro hs hl ha hd
    have hv : (payloadVerified computeHash algorithmHash s.algorithmBytes &&
        dataVerified computeHash dataHash s.dataPayloads) = true := by
      rw [Bool.and_eq_true]
      exact ⟨halg.2 ha, hdata.2 ⟨hl, hd⟩⟩
    unfold Verify
    rw [if_pos hs, if_neg (not_not.2 hl), if_pos hv]
    exact ⟨rfl, rfl⟩


/-- The statement of C7 on the scenarios of section 8: two data hashes against
three uploaded payloads give `ArityMismatch`, and a wrong algorithm hash gives
`IntegrityViolation`; the session is unchanged in both. -/
theorem Verify_integrity_witness :
    Verify hexDigest ⟨.DockerFolder, .Loaded, sumBin, [[1], [2], [3]], "", []⟩
        (hexDigest sumBin) ["01", "02"] =
        (⟨.DockerFolder, .Loaded, sumBin, [[1], [2], [3]], "", []⟩, some .ArityMismatch) ∧
      Verify hexDigest ⟨.DockerFolder, .Loaded, sumBin, [oneTwoThree], "", []⟩
        "00" [hexDigest oneTwoThree] =
        (⟨.DockerFolder, .Loaded, sumBin, [oneTwoThree], "", []⟩, some .IntegrityViolation) :=
  ⟨(Verify_integrity hexDigest ⟨.DockerFolder, .Loaded, sumBin, [[1], [2], [3]], "", []⟩
      (hexDigest sumBin) ["01", "02"]).2.1 rfl (by decide),
    (Verify_integrity hexDigest ⟨.DockerFolder, .Loaded, sumBin, [oneTwoThree], "", []⟩
      "00" [hexDigest oneTwoThree]).2.2.1 rfl (by decide) (Or.inr (Or.inl (by decide)))⟩

/-- C8: in the lifecycle of the specification, once `Destroy` has returned
success the session is `Destroyed`, and a second `Destroy` right after it
returns success as well and returns the session exactly as the first call left
it, whatever the backend answers. -/
theorem Destroy_idempotent (s : Session) (released again : Bool)
    (h : (Destroy s released).2 = none) :
    (Destroy s released).1.state = .Destroyed ∧
      Destroy (Destroy s released).1 again = ((Destroy s released).1, none) := by
  unfold Destroy at h ⊢
  cases hs : s.state <;> simp [hs] at h ⊢

/-- The statement of C8 on the session of the scenario of section 8. -/
theorem Destroy_idempotent_witness :
    (Destroy (run hexDigest (Session.new .DockerFolder) verifiedScenario).1 true).1.state =
        .Destroyed ∧
      Destroy (Destroy (run hexDigest (Session.new .DockerFolder) verifiedScenario).1 true).1
        false =
        ((Destroy (run hexDigest (Session.new .DockerFolder) verifiedScenario).1 true).1, none) :=
  Destroy_idempotent (run hexDigest (Session.new .DockerFolder) verifiedScenario).1 true false
    (by decide)

/-- C10: the three named values of `Type` are `Docker = 0`, `Sibling = 1` and
`SGX = 2`, pairwise distinct, `Docker` being the zero value of `Type`; in that
order they select the modes `DockerFolder`, `SiblingContainer` and
`HardwareEnclave` of the specification. -/
theorem Type_values :
    Docker = 0 ∧ Sibling = 1 ∧ SGX = 2 ∧
      Docker ≠ Sibling ∧ Docker ≠ SGX ∧ Sibling ≠ SGX ∧
      Docker = (default : «Type») ∧
      «Type».mode Docker = some .DockerFolder ∧
      «Type».mode Sibling = some .SiblingContainer ∧
      «Type».mode SGX = some .HardwareEnclave := by
  decide

end container
